import Mathlib

/-!
Shallow embedding of the salon queue-and-booking backend
(apps order_queue, orders, inventory, services).

Conventions of the embedding:
* database tables are Lean lists; a Django queryset ordered by a column is
  a stable insertion sort of the filtered list;
* ids, user references, timestamps and durations are natural numbers
  (DateTimeField values are totally ordered instants; Decimal prices are
  amounts in minor units);
* a Django `.get` that may raise, and a view that may answer HTTP 400, are
  functions into Except String;
* side effects performed by views (loyalty credit, notifications, stock
  reduction) are reified as an emitted list of commands.
-/

deriving instance DecidableEq for Except

namespace Salon

/-- Status of a queue entry, from Queue.STATUS_CHOICES in order_queue/models.py. -/
inductive QStatus
  | waiting
  | in_progress
  | completed
  | cancelled
  | no_show
deriving DecidableEq

/-- A catalog service (services/models.py Service): duration in minutes, price,
loyalty points, and the products it consumes as (product id, quantity_used)
pairs (inventory/models.py ServiceProduct). -/
structure Service where
  duration : Nat
  price : Nat
  loyalty_points : Nat
  service_products : List (Nat × Nat)
deriving DecidableEq

/-- One line item of a booking (order_queue/models.py BookingService); by the
unique_together constraint the service is unique within one booking. -/
structure BookingService where
  service : Service
  quantity : Nat
deriving DecidableEq

/-- A booking (order_queue/models.py Booking). -/
structure Booking where
  id : Nat
  customer : Nat
  line_items : List BookingService
  total_amount : Nat
  total_duration : Nat
  is_confirmed : Bool
deriving DecidableEq

/-- A queue entry (order_queue/models.py Queue). -/
structure QueueEntry where
  id : Nat
  customer : Nat
  booking : Booking
  status : QStatus
  time_joined : Nat
  time_started : Option Nat
  time_completed : Option Nat
  estimated_start_time : Option Nat
  staff_assigned : Option Nat
deriving DecidableEq

/-- The filter used by QueueManager.get_active_queue: status = waiting. -/
def waitingB (e : QueueEntry) : Bool :=
  decide (e.status = QStatus.waiting)

/-- Comparison used by order_by on time_joined. -/
def timeLE (a b : QueueEntry) : Prop :=
  a.time_joined ≤ b.time_joined

instance : DecidableRel timeLE :=
  fun a b => inferInstanceAs (Decidable (a.time_joined ≤ b.time_joined))

instance : IsTotal QueueEntry timeLE :=
  ⟨fun a b => Nat.le_total a.time_joined b.time_joined⟩

instance : IsTrans QueueEntry timeLE :=
  ⟨fun _ _ _ h h2 => Nat.le_trans h h2⟩

/-- QueueManager.get_active_queue: filter(status=waiting).order_by(time_joined).
The sort is a stable insertion sort, so equal timestamps keep table order. -/
def get_active_queue (db : List QueueEntry) : List QueueEntry :=
  List.insertionSort timeLE (db.filter waitingB)

/-- The distinct services of a booking, as booking.services.all() returns them:
one per line item, by the unique_together (booking, service) constraint. -/
def services_of (b : Booking) : List Service :=
  b.line_items.map (fun bs => bs.service)

/-- QueueManager.get_customer_position: `active_queue.get(customer=customer)`
returns None when no waiting row matches (DoesNotExist is caught), the
1-based index of the unique match otherwise, and raises MultipleObjectsReturned
(uncaught) when several waiting rows share the customer.  Model instances
compare by primary key, so the list index is found by id. -/
def get_customer_position (db : List QueueEntry) (customer : Nat) :
    Except String (Option Nat) :=
  match (get_active_queue db).filter (fun e => decide (e.customer = customer)) with
  | [] => Except.ok none
  | [customer_queue] =>
      Except.ok (some ((get_active_queue db).findIdx
        (fun e => decide (e.id = customer_queue.id)) + 1))
  | _ => Except.error ("MultipleObjectsReturned")

/-- QueueManager.estimate_wait_time: position None gives 0; otherwise the
entries strictly ahead are `active_queue[:position-1]` and their services'
durations are added up (note: one duration per distinct service of the
booking, the line quantity is not used by this loop). -/
def estimate_wait_time (db : List QueueEntry) (customer : Nat) :
    Except String Nat :=
  match get_customer_position db customer with
  | Except.error err => Except.error err
  | Except.ok none => Except.ok 0
  | Except.ok (some position) =>
      let customers_ahead := (get_active_queue db).take (position - 1)
      Except.ok (customers_ahead.foldl
        (fun total_duration queue_item =>
          (services_of queue_item.booking).foldl
            (fun acc s => acc + s.duration) total_duration) 0)

/-- Queue.total_service_duration: sum of service.duration over
booking.services.all() (one per distinct service, quantity not used). -/
def total_service_duration (e : QueueEntry) : Nat :=
  ((services_of e.booking).map (fun s => s.duration)).sum

/-- Queue.position_in_queue property. -/
def position_in_queue (db : List QueueEntry) (e : QueueEntry) :
    Except String (Option Nat) :=
  get_customer_position db e.customer

/-- Queue.estimated_wait_time property. -/
def entry_estimated_wait_time (db : List QueueEntry) (e : QueueEntry) :
    Except String Nat :=
  estimate_wait_time db e.customer

/-- Booking.calculate_totals: recompute total_amount and total_duration from
the line items (price × quantity, duration × quantity). -/
def calculate_totals (b : Booking) : Booking :=
  { b with
    total_amount := (b.line_items.map (fun bs => bs.service.price * bs.quantity)).sum
    total_duration := (b.line_items.map (fun bs => bs.service.duration * bs.quantity)).sum }

/-- BookingCreateSerializer.create: create the booking, add one BookingService
per (service, quantity) datum, then call calculate_totals. -/
def booking_create (customer : Nat) (bid : Nat)
    (services_data : List (Service × Nat)) : Booking :=
  let booking : Booking :=
    { id := bid, customer := customer,
      line_items := services_data.map (fun sq => { service := sq.1, quantity := sq.2 }),
      total_amount := 0, total_duration := 0, is_confirmed := false }
  calculate_totals booking

/-- Booking.get_estimated_wait_time: sum of total_service_duration over the
current active queue. -/
def get_estimated_wait_time (db : List QueueEntry) : Nat :=
  ((get_active_queue db).map total_service_duration).sum

/-- Booking.confirm_booking: set is_confirmed, then create one queue entry
(status defaults to waiting, time_joined is set at creation) whose
estimated_start_time is now + get_estimated_wait_time, computed against the
queue as it is before the new entry is inserted. -/
def confirm_booking (db : List QueueEntry) (b : Booking) (now newId : Nat) :
    Booking × List QueueEntry × QueueEntry :=
  let b2 := { b with is_confirmed := true }
  let queue_item : QueueEntry :=
    { id := newId, customer := b2.customer, booking := b2,
      status := QStatus.waiting, time_joined := now,
      time_started := none, time_completed := none,
      estimated_start_time := some (now + get_estimated_wait_time db),
      staff_assigned := none }
  (b2, db ++ [queue_item], queue_item)

/-- views.confirm_booking: reject an already confirmed booking with HTTP 400,
otherwise run Booking.confirm_booking. -/
def confirm_booking_view (db : List QueueEntry) (b : Booking) (now newId : Nat) :
    Except String (Booking × List QueueEntry × QueueEntry) :=
  if b.is_confirmed then Except.error ("Booking already confirmed")
  else Except.ok (confirm_booking db b now newId)

/-- Queue.start_service: status := in_progress, time_started := now, and the
staff reference is bound only when one is supplied. -/
def entry_start_service (e : QueueEntry) (now : Nat) (staff_member : Option Nat) :
    QueueEntry :=
  { e with
    status := QStatus.in_progress
    time_started := some now
    staff_assigned :=
      match staff_member with
      | some s => some s
      | none => e.staff_assigned }

/-- Queue.complete_service: status := completed, time_completed := now. -/
def entry_complete_service (e : QueueEntry) (now : Nat) : QueueEntry :=
  { e with status := QStatus.completed, time_completed := some now }

/-- Queue.cancel_service: status := cancelled. -/
def entry_cancel_service (e : QueueEntry) : QueueEntry :=
  { e with status := QStatus.cancelled }

/-- Commands emitted by the views for their side effects (notifications,
loyalty credit, stock reduction). -/
inductive Command
  | notify (user : Nat) (kind : String)
  | credit_loyalty (user : Nat) (points : Nat)
  | consume_stock (product : Nat) (quantity : Nat)
deriving DecidableEq

/-- views.start_service on a fetched entry: reject unless status is waiting,
otherwise Queue.start_service (the view passes the acting staff user) and a
service_started notification to the customer. -/
def start_service (e : QueueEntry) (now : Nat) (staff_member : Option Nat) :
    Except String (QueueEntry × List Command) :=
  if e.status ≠ QStatus.waiting then Except.error ("Service cannot be started")
  else
    Except.ok (entry_start_service e now staff_member,
      [Command.notify e.customer ("service_started")])

/-- Saving a mutated row back into the table: replace the row with that id. -/
def replace_entry (db : List QueueEntry) (e2 : QueueEntry) : List QueueEntry :=
  db.map (fun x => if x.id = e2.id then e2 else x)

/-- views.complete_service on a fetched entry: reject unless in_progress;
otherwise Queue.complete_service, credit the customer
Σ service.loyalty_points × quantity over the booking's line items, notify the
customer, and notify the customer of the first entry of the now-current active
queue, when there is one. -/
def complete_service (db : List QueueEntry) (e : QueueEntry) (now : Nat) :
    Except String (List QueueEntry × List Command) :=
  if e.status ≠ QStatus.in_progress then Except.error ("Service is not in progress")
  else
    let e2 := entry_complete_service e now
    let db2 := replace_entry db e2
    let total_points :=
      (e.booking.line_items.map (fun bs => bs.service.loyalty_points * bs.quantity)).sum
    let next_cmds :=
      match (get_active_queue db2).head? with
      | some next_queue_item => [Command.notify next_queue_item.customer ("queue_next")]
      | none => []
    Except.ok (db2,
      [Command.credit_loyalty e.customer total_points,
       Command.notify e.customer ("service_completed")] ++ next_cmds)

/-- views.cancel_queue_item on a fetched entry: reject exactly the statuses in
the list ['completed', 'cancelled'], otherwise Queue.cancel_service.  (The
notification sent when staff cancels for a customer is independent of the
entry's state change and is not modelled.) -/
def cancel_queue_item (e : QueueEntry) : Except String QueueEntry :=
  if e.status = QStatus.completed ∨ e.status = QStatus.cancelled then
    Except.error ("Cannot cancel this item")
  else Except.ok (entry_cancel_service e)

/-- A service line of an order (orders/models.py OrderServiceItem). -/
structure OrderServiceItem where
  service : Service
  quantity : Nat
deriving DecidableEq

/-- The stock reductions performed by Order.complete_order (orders/models.py):
item.quantity for each product line, and
service_product.quantity_used * item.quantity for each product consumed by
each service line. -/
def complete_order_stock_commands (product_items : List (Nat × Nat))
    (service_items : List OrderServiceItem) : List Command :=
  product_items.map (fun pq => Command.consume_stock pq.1 pq.2) ++
  (service_items.map (fun item =>
    item.service.service_products.map
      (fun sp => Command.consume_stock sp.1 (sp.2 * item.quantity)))).flatten

/-- Concrete service of the spec scenario: 30 minutes, 10000, 5 points. -/
def svc30 : Service :=
  { duration := 30, price := 10000, loyalty_points := 5, service_products := [] }

/-- Concrete service of the spec scenario: 45 minutes, 15000, 7 points. -/
def svc45 : Service :=
  { duration := 45, price := 15000, loyalty_points := 7, service_products := [] }

/-- A service consuming product 7, two units per service performed. -/
def svcP : Service :=
  { duration := 20, price := 100, loyalty_points := 0, service_products := [(7, 2)] }

/-- Scenario booking of customer 1 (services 30 and 45 minutes). -/
def bk1 : Booking :=
  { id := 1, customer := 1,
    line_items := [{ service := svc30, quantity := 1 }, { service := svc45, quantity := 1 }],
    total_amount := 25000, total_duration := 75, is_confirmed := true }

/-- Scenario booking of customer 2 (services 30 and 45 minutes). -/
def bk2 : Booking :=
  { id := 2, customer := 2,
    line_items := [{ service := svc30, quantity := 1 }, { service := svc45, quantity := 1 }],
    total_amount := 25000, total_duration := 75, is_confirmed := true }

/-- Scenario entry of customer 1, already started (in_progress). -/
def e1s : QueueEntry :=
  { id := 1, customer := 1, booking := bk1, status := QStatus.in_progress,
    time_joined := 0, time_started := some 3, time_completed := none,
    estimated_start_time := some 0, staff_assigned := some 9 }

/-- Scenario entry of customer 2, still waiting behind customer 1. -/
def e2w : QueueEntry :=
  { id := 2, customer := 2, booking := bk2, status := QStatus.waiting,
    time_joined := 1, time_started := none, time_completed := none,
    estimated_start_time := some 75, staff_assigned := none }

/-- Scenario table: customer 1 in progress, customer 2 waiting. -/
def dbS : List QueueEntry := [e1s, e2w]

/-- An entry in status no_show (cancellation test input). -/
def eNS : QueueEntry :=
  { id := 3, customer := 3, booking := bk1, status := QStatus.no_show,
    time_joined := 2, time_started := none, time_completed := none,
    estimated_start_time := none, staff_assigned := none }

/-- Two waiting entries of the same customer 1, distinct ids and join times. -/
def dbDup : List QueueEntry :=
  [{ id := 1, customer := 1, booking := bk1, status := QStatus.waiting,
     time_joined := 0, time_started := none, time_completed := none,
     estimated_start_time := none, staff_assigned := none },
   { id := 2, customer := 1, booking := bk2, status := QStatus.waiting,
     time_joined := 1, time_started := none, time_completed := none,
     estimated_start_time := none, staff_assigned := none }]

/-- Booking of customer 1 with one line item of quantity 2 (30-minute service). -/
def bkQ2 : Booking :=
  { id := 3, customer := 1,
    line_items := [{ service := svc30, quantity := 2 }],
    total_amount := 20000, total_duration := 60, is_confirmed := true }

/-- Waiting entry of customer 1 whose booking has a quantity-2 line. -/
def eQ1 : QueueEntry :=
  { id := 1, customer := 1, booking := bkQ2, status := QStatus.waiting,
    time_joined := 0, time_started := none, time_completed := none,
    estimated_start_time := none, staff_assigned := none }

/-- Waiting entry of customer 2, behind eQ1. -/
def eQ2 : QueueEntry :=
  { id := 2, customer := 2, booking := bk2, status := QStatus.waiting,
    time_joined := 5, time_started := none, time_completed := none,
    estimated_start_time := none, staff_assigned := none }

/-- Table with the quantity-2 entry ahead of customer 2. -/
def dbQty : List QueueEntry := [eQ1, eQ2]

/-- In-progress entry of customer 1 whose booking uses product 7 (qty 3 lines). -/
def eC6 : QueueEntry :=
  { id := 1, customer := 1,
    booking :=
      { id := 4, customer := 1,
        line_items := [{ service := svcP, quantity := 3 }],
        total_amount := 300, total_duration := 60, is_confirmed := true },
    status := QStatus.in_progress, time_joined := 0, time_started := some 2,
    time_completed := none, estimated_start_time := none, staff_assigned := none }

/-- Table holding only the product-consuming entry. -/
def dbC6 : List QueueEntry := [eC6]

/-- An unconfirmed booking of customer 5. -/
def bk0 : Booking :=
  { id := 5, customer := 5,
    line_items := [{ service := svc30, quantity := 1 }],
    total_amount := 10000, total_duration := 30, is_confirmed := false }

lemma foldl_add_eq_sum {α : Type} (f : α → Nat) :
    ∀ (l : List α) (acc : Nat),
      l.foldl (fun a x => a + f x) acc = acc + (l.map f).sum
  | [], acc => by simp
  | x :: t, acc => by
      simp only [List.foldl_cons, List.map_cons, List.sum_cons,
        foldl_add_eq_sum f t]
      omega

lemma wait_foldl_eq_sum (l : List QueueEntry) :
    l.foldl
      (fun total_duration queue_item =>
        (services_of queue_item.booking).foldl
          (fun acc s => acc + s.duration) total_duration) 0
    = (l.map total_service_duration).sum := by
  have hstep : (fun (total : Nat) (q : QueueEntry) =>
      (services_of q.booking).foldl (fun acc s => acc + s.duration) total)
      = fun total q => total + total_service_duration q := by
    funext total q
    exact foldl_add_eq_sum (fun s : Service => s.duration) (services_of q.booking) total
  rw [hstep]
  simpa using foldl_add_eq_sum total_service_duration l 0

lemma sorted_active (db : List QueueEntry) :
    (get_active_queue db).Sorted timeLE :=
  List.sorted_insertionSort timeLE (db.filter waitingB)

lemma perm_active (db : List QueueEntry) :
    (get_active_queue db).Perm (db.filter waitingB) :=
  List.perm_insertionSort timeLE (db.filter waitingB)

lemma filter_lt_eq_take (K : Nat) :
    ∀ (l : List QueueEntry), l.Sorted timeLE →
      l.filter (fun x => decide (x.time_joined < K)) =
      l.take (l.countP (fun x => decide (x.time_joined < K)))
  | [], _ => rfl
  | a :: t, h => by
      have ht : t.Sorted timeLE := (List.sorted_cons.mp h).2
      have hrel : ∀ x ∈ t, timeLE a x := (List.sorted_cons.mp h).1
      by_cases ha : a.time_joined < K
      · have hih := filter_lt_eq_take K t ht
        simp [List.filter_cons, List.countP_cons, ha, List.take_succ_cons, hih]
      · have hnone : ∀ x ∈ t, ¬ x.time_joined < K := by
          intro x hx hlt
          exact ha (Nat.lt_of_le_of_lt (hrel x hx) hlt)
        have hfil : t.filter (fun x => decide (x.time_joined < K)) = [] := by
          apply List.filter_eq_nil_iff.mpr
          intro x hx
          simpa using hnone x hx
        have hcnt : t.countP (fun x => decide (x.time_joined < K)) = 0 := by
          rw [List.countP_eq_length_filter, hfil]
          rfl
        simp [List.filter_cons, List.countP_cons, ha, hfil, hcnt]

lemma findIdx_sorted_eq_countP :
    ∀ (l : List QueueEntry), l.Sorted timeLE →
      l.Pairwise (fun a b => a.time_joined ≠ b.time_joined) →
      l.Pairwise (fun a b => a.id ≠ b.id) →
      ∀ e ∈ l,
        l.findIdx (fun x => decide (x.id = e.id)) =
        l.countP (fun x => decide (x.time_joined < e.time_joined))
  | [], _, _, _, e, he => by cases he
  | a :: t, hs, hkeys, hids, e, he => by
      have ht : t.Sorted timeLE := (List.sorted_cons.mp hs).2
      have hrel : ∀ x ∈ t, timeLE a x := (List.sorted_cons.mp hs).1
      rcases List.mem_cons.mp he with heq | het
      · have h0 : (a :: t).findIdx (fun x => decide (x.id = e.id)) = 0 := by
          simp [List.findIdx_cons, heq]
        have hcnt : (a :: t).countP
            (fun x => decide (x.time_joined < e.time_joined)) = 0 := by
          apply List.countP_eq_zero.mpr
          intro x hx
          rcases List.mem_cons.mp hx with hxa | hxt
          · rw [hxa, heq]
            simp
          · rw [heq]
            simpa using Nat.not_lt.mpr (hrel x hxt)
        rw [h0, hcnt]
      · have haid : a.id ≠ e.id := (List.pairwise_cons.mp hids).1 e het
        have hakey : a.time_joined ≠ e.time_joined := (List.pairwise_cons.mp hkeys).1 e het
        have halt : a.time_joined < e.time_joined :=
          Nat.lt_of_le_of_ne (hrel e het) hakey
        have hfind : (a :: t).findIdx (fun x => decide (x.id = e.id)) =
            t.findIdx (fun x => decide (x.id = e.id)) + 1 := by
          simp [List.findIdx_cons, haid]
        have hcnt : (a :: t).countP (fun x => decide (x.time_joined < e.time_joined)) =
            t.countP (fun x => decide (x.time_joined < e.time_joined)) + 1 := by
          simp [List.countP_cons, halt]
        rw [hfind, hcnt,
          findIdx_sorted_eq_countP t ht (List.pairwise_cons.mp hkeys).2
            (List.pairwise_cons.mp hids).2 e het]

lemma nodup_of_pairwise_ids {l : List QueueEntry}
    (h : l.Pairwise (fun a b => a.id ≠ b.id)) : l.Nodup :=
  h.imp (fun hne heq => hne (by rw [heq]))

lemma nodup_all_eq_singleton {l : List QueueEntry} {e : QueueEntry}
    (hn : l.Nodup) (hall : ∀ x ∈ l, x = e) (he : e ∈ l) : l = [e] := by
  cases l with
  | nil => cases he
  | cons a t =>
    have ha : a = e := hall a (List.mem_cons_self a t)
    subst ha
    cases t with
    | nil => rfl
    | cons b t2 =>
      have hb : b = a := hall b (by simp)
      have hnot : a ∉ b :: t2 := (List.nodup_cons.mp hn).1
      exact absurd (by simp [hb]) hnot

lemma active_pairwise_keys {db : List QueueEntry}
    (hkeys : (db.filter waitingB).Pairwise (fun a b => a.time_joined ≠ b.time_joined)) :
    (get_active_queue db).Pairwise (fun a b => a.time_joined ≠ b.time_joined) :=
  ((perm_active db).pairwise_iff (fun h => Ne.symm h)).mpr hkeys

lemma active_pairwise_ids {db : List QueueEntry}
    (hids : (db.filter waitingB).Pairwise (fun a b => a.id ≠ b.id)) :
    (get_active_queue db).Pairwise (fun a b => a.id ≠ b.id) :=
  ((perm_active db).pairwise_iff (fun h => Ne.symm h)).mpr hids

lemma active_customer_filter_singleton (db : List QueueEntry) (e : QueueEntry)
    (he : e ∈ db) (hw : e.status = QStatus.waiting)
    (hids : (db.filter waitingB).Pairwise (fun a b => a.id ≠ b.id))
    (huniq : ∀ x ∈ db, x.status = QStatus.waiting → x.customer = e.customer → x = e) :
    (get_active_queue db).filter (fun x => decide (x.customer = e.customer)) = [e] := by
  have hperm := perm_active db
  have hef : e ∈ db.filter waitingB :=
    List.mem_filter.mpr ⟨he, by simp [waitingB, hw]⟩
  have heaq : e ∈ get_active_queue db := hperm.mem_iff.mpr hef
  have hnodup : (get_active_queue db).Nodup :=
    nodup_of_pairwise_ids (active_pairwise_ids hids)
  have hall : ∀ x ∈ (get_active_queue db).filter
      (fun x => decide (x.customer = e.customer)), x = e := by
    intro x hx
    have hx2 := List.mem_filter.mp hx
    have hxf : x ∈ db.filter waitingB := hperm.mem_iff.mp hx2.1
    have hxdb := List.mem_filter.mp hxf
    refine huniq x hxdb.1 ?_ (by simpa using hx2.2)
    have hb := hxdb.2
    simpa [waitingB] using hb
  exact nodup_all_eq_singleton (hnodup.filter _) hall
    (List.mem_filter.mpr ⟨heaq, by simp⟩)

lemma get_customer_position_spec (db : List QueueEntry) (e : QueueEntry)
    (he : e ∈ db) (hw : e.status = QStatus.waiting)
    (hkeys : (db.filter waitingB).Pairwise (fun a b => a.time_joined ≠ b.time_joined))
    (hids : (db.filter waitingB).Pairwise (fun a b => a.id ≠ b.id))
    (huniq : ∀ x ∈ db, x.status = QStatus.waiting → x.customer = e.customer → x = e) :
    get_customer_position db e.customer =
      Except.ok (some ((db.filter waitingB).countP
        (fun x => decide (x.time_joined < e.time_joined)) + 1)) := by
  have hsingle := active_customer_filter_singleton db e he hw hids huniq
  have hperm := perm_active db
  have hef : e ∈ db.filter waitingB :=
    List.mem_filter.mpr ⟨he, by simp [waitingB, hw]⟩
  have heaq : e ∈ get_active_queue db := hperm.mem_iff.mpr hef
  have hfind := findIdx_sorted_eq_countP (get_active_queue db) (sorted_active db)
    (active_pairwise_keys hkeys) (active_pairwise_ids hids) e heaq
  have hcnt := hperm.countP_eq (fun x => decide (x.time_joined < e.time_joined))
  unfold get_customer_position
  rw [hsingle]
  show Except.ok (some ((get_active_queue db).findIdx
      (fun x => decide (x.id = e.id)) + 1)) =
    Except.ok (some ((db.filter waitingB).countP
      (fun x => decide (x.time_joined < e.time_joined)) + 1))
  rw [hfind, hcnt]

lemma estimate_wait_time_spec (db : List QueueEntry) (e : QueueEntry)
    (he : e ∈ db) (hw : e.status = QStatus.waiting)
    (hkeys : (db.filter waitingB).Pairwise (fun a b => a.time_joined ≠ b.time_joined))
    (hids : (db.filter waitingB).Pairwise (fun a b => a.id ≠ b.id))
    (huniq : ∀ x ∈ db, x.status = QStatus.waiting → x.customer = e.customer → x = e) :
    estimate_wait_time db e.customer =
      Except.ok ((((db.filter waitingB).filter
        (fun x => decide (x.time_joined < e.time_joined))).map
          total_service_duration).sum) := by
  have hpos := get_customer_position_spec db e he hw hkeys hids huniq
  have hperm := perm_active db
  have hcnt := hperm.countP_eq (fun x => decide (x.time_joined < e.time_joined))
  have htake : (get_active_queue db).take
      ((db.filter waitingB).countP (fun x => decide (x.time_joined < e.time_joined)) + 1 - 1)
      = (get_active_queue db).filter (fun x => decide (x.time_joined < e.time_joined)) := by
    rw [Nat.add_sub_cancel, ← hcnt,
      ← filter_lt_eq_take e.time_joined (get_active_queue db) (sorted_active db)]
  have hpf : ((get_active_queue db).filter
      (fun x => decide (x.time_joined < e.time_joined))).Perm
      ((db.filter waitingB).filter (fun x => decide (x.time_joined < e.time_joined))) :=
    hperm.filter _
  unfold estimate_wait_time
  rw [hpos]
  show Except.ok (((get_active_queue db).take
      ((db.filter waitingB).countP
        (fun x => decide (x.time_joined < e.time_joined)) + 1 - 1)).foldl
      (fun total_duration queue_item =>
        (services_of queue_item.booking).foldl
          (fun acc s => acc + s.duration) total_duration) 0) =
    Except.ok ((((db.filter waitingB).filter
      (fun x => decide (x.time_joined < e.time_joined))).map
        total_service_duration).sum)
  rw [htake, wait_foldl_eq_sum, (hpf.map total_service_duration).sum_eq]

/-- C1 amended: get_active_queue is the waiting entries sorted by time_joined
ascending, and — provided waiting entries have pairwise distinct join times
and ids, and the entry's customer has no other waiting entry —
get_customer_position returns 1 + the number of waiting entries with strictly
earlier time_joined, whatever the non-waiting entries are. -/
theorem C1_active_order_position (db : List QueueEntry) (e : QueueEntry)
    (he : e ∈ db) (hw : e.status = QStatus.waiting)
    (hkeys : (db.filter waitingB).Pairwise (fun a b => a.time_joined ≠ b.time_joined))
    (hids : (db.filter waitingB).Pairwise (fun a b => a.id ≠ b.id))
    (huniq : ∀ x ∈ db, x.status = QStatus.waiting → x.customer = e.customer → x = e) :
    (get_active_queue db).Sorted timeLE ∧
    (get_active_queue db).Perm (db.filter waitingB) ∧
    get_customer_position db e.customer =
      Except.ok (some (1 + (db.filter waitingB).countP
        (fun x => decide (x.time_joined < e.time_joined)))) := by
  refine ⟨sorted_active db, perm_active db, ?_⟩
  rw [get_customer_position_spec db e he hw hkeys hids huniq, Nat.add_comm]

/-- C1 witness: in dbQty customer 2's entry is second; its position is
1 + 1 waiting entry joined earlier. -/
theorem C1_witness :
    (get_active_queue dbQty).Sorted timeLE ∧
    (get_active_queue dbQty).Perm (dbQty.filter waitingB) ∧
    get_customer_position dbQty eQ2.customer =
      Except.ok (some (1 + (dbQty.filter waitingB).countP
        (fun x => decide (x.time_joined < eQ2.time_joined)))) :=
  C1_active_order_position dbQty eQ2 (by decide) (by decide) (by decide)
    (by decide) (by decide)

/-- C1 counterexample: with two waiting entries of the same customer 1
(dbDup), get_customer_position raises MultipleObjectsReturned instead of
returning the entry's rank, refuting the claim for that state. -/
theorem C1_counterexample :
    get_customer_position dbDup 1 = Except.error ("MultipleObjectsReturned") ∧
    get_customer_position dbDup 1 ≠ Except.ok (some 1) ∧
    get_customer_position dbDup 1 ≠ Except.ok (some 2) := by
  decide

/-- C2 amended: for a waiting entry e — its customer's only waiting entry,
join times and ids distinct among waiting entries — estimate_wait_time is the
sum over the waiting entries joined strictly earlier of total_service_duration,
which adds service.duration once per distinct service of the booking and does
not multiply by the line quantity. -/
theorem C2_wait_time (db : List QueueEntry) (e : QueueEntry)
    (he : e ∈ db) (hw : e.status = QStatus.waiting)
    (hkeys : (db.filter waitingB).Pairwise (fun a b => a.time_joined ≠ b.time_joined))
    (hids : (db.filter waitingB).Pairwise (fun a b => a.id ≠ b.id))
    (huniq : ∀ x ∈ db, x.status = QStatus.waiting → x.customer = e.customer → x = e) :
    estimate_wait_time db e.customer =
      Except.ok ((((db.filter waitingB).filter
        (fun x => decide (x.time_joined < e.time_joined))).map
          total_service_duration).sum) :=
  estimate_wait_time_spec db e he hw hkeys hids huniq

/-- C2 witness: customer 2 of dbQty waits behind the single quantity-2 entry;
the estimate is that entry's total_service_duration. -/
theorem C2_witness :
    estimate_wait_time dbQty eQ2.customer =
      Except.ok ((((dbQty.filter waitingB).filter
        (fun x => decide (x.time_joined < eQ2.time_joined))).map
          total_service_duration).sum) :=
  C2_wait_time dbQty eQ2 (by decide) (by decide) (by decide) (by decide)
    (by decide)

/-- C2 counterexample: ahead of customer 2 sits one waiting entry with a
single line of a 30-minute service at quantity 2.  The claim's formula
(duration times quantity) gives 60, but estimate_wait_time returns 30. -/
theorem C2_counterexample :
    estimate_wait_time dbQty 2 = Except.ok 30 ∧
    ((dbQty.filter waitingB).filter
      (fun x => decide (x.time_joined < eQ2.time_joined))).map
        (fun x => (x.booking.line_items.map
          (fun bs => bs.service.duration * bs.quantity)).sum) = [60] ∧
    (30 : Nat) ≠ 60 := by
  decide

/-- C9: after calculate_totals (and after booking creation, which runs it),
total_amount is the sum of unit price times quantity and total_duration the sum
of duration times quantity over the current line items, line items are
untouched, and calculate_totals is idempotent. -/
theorem C9_calculate_totals (b : Booking) (customer bid : Nat)
    (services_data : List (Service × Nat)) :
    (calculate_totals b).total_amount =
      (b.line_items.map (fun bs => bs.service.price * bs.quantity)).sum ∧
    (calculate_totals b).total_duration =
      (b.line_items.map (fun bs => bs.service.duration * bs.quantity)).sum ∧
    (calculate_totals b).line_items = b.line_items ∧
    calculate_totals (calculate_totals b) = calculate_totals b ∧
    (booking_create customer bid services_data).total_amount =
      ((booking_create customer bid services_data).line_items.map
        (fun bs => bs.service.price * bs.quantity)).sum ∧
    (booking_create customer bid services_data).total_duration =
      ((booking_create customer bid services_data).line_items.map
        (fun bs => bs.service.duration * bs.quantity)).sum :=
  ⟨rfl, rfl, rfl, rfl, rfl, rfl⟩

/-- C10: a customer with no waiting entry gets position None and wait time 0
(no error), and the estimated_wait_time property of any of that customer's
(necessarily non-waiting) entries reads 0. -/
theorem C10_no_waiting_entry (db : List QueueEntry) (c : Nat)
    (h : ∀ x ∈ db, x.status = QStatus.waiting → x.customer ≠ c) :
    get_customer_position db c = Except.ok none ∧
    estimate_wait_time db c = Except.ok 0 ∧
    ∀ e ∈ db, e.customer = c → entry_estimated_wait_time db e = Except.ok 0 := by
  have hfil : (get_active_queue db).filter (fun x => decide (x.customer = c)) = [] := by
    apply List.filter_eq_nil_iff.mpr
    intro x hx
    have hxf := List.mem_filter.mp ((perm_active db).mem_iff.mp hx)
    have hxw : x.status = QStatus.waiting := by
      have hb := hxf.2
      simpa [waitingB] using hb
    simpa using h x hxf.1 hxw
  have hpos : get_customer_position db c = Except.ok none := by
    unfold get_customer_position
    rw [hfil]
  have hest : estimate_wait_time db c = Except.ok 0 := by
    unfold estimate_wait_time
    rw [hpos]
  refine ⟨hpos, hest, ?_⟩
  intro e _ hec
  unfold entry_estimated_wait_time
  rw [hec]
  exact hest

/-- C10 witness: in dbS customer 1 has only an in_progress entry; position is
None, wait is 0, and entry e1s reads estimated wait 0. -/
theorem C10_witness :
    get_customer_position dbS 1 = Except.ok none ∧
    estimate_wait_time dbS 1 = Except.ok 0 ∧
    ∀ e ∈ dbS, e.customer = 1 → entry_estimated_wait_time dbS e = Except.ok 0 :=
  C10_no_waiting_entry dbS 1 (by decide)

/-- C3: on an unconfirmed booking, confirm succeeds, sets is_confirmed, and
appends exactly one waiting entry; confirming the resulting booking again
always fails with the already-confirmed error, whatever the state. -/
theorem C3_confirm_idempotent (db : List QueueEntry) (b : Booking) (now newId : Nat)
    (h : b.is_confirmed = false) :
    confirm_booking_view db b now newId =
      Except.ok (confirm_booking db b now newId) ∧
    (confirm_booking db b now newId).1.is_confirmed = true ∧
    (confirm_booking db b now newId).2.2.status = QStatus.waiting ∧
    (confirm_booking db b now newId).2.1 =
      db ++ [(confirm_booking db b now newId).2.2] ∧
    (confirm_booking db b now newId).2.1.length = db.length + 1 ∧
    ∀ db2 now2 newId2,
      confirm_booking_view db2 (confirm_booking db b now newId).1 now2 newId2 =
        Except.error ("Booking already confirmed") := by
  refine ⟨?_, rfl, rfl, rfl, by simp [confirm_booking], fun db2 now2 newId2 => rfl⟩
  unfold confirm_booking_view
  rw [if_neg (by rw [h]; exact Bool.false_ne_true)]

/-- C3 witness: the unconfirmed booking bk0 confirms once and then refuses. -/
theorem C3_witness :
    confirm_booking_view dbS bk0 100 9 =
      Except.ok (confirm_booking dbS bk0 100 9) ∧
    (confirm_booking dbS bk0 100 9).2.1.length = dbS.length + 1 ∧
    confirm_booking_view dbS (confirm_booking dbS bk0 100 9).1 200 10 =
      Except.error ("Booking already confirmed") := by
  obtain ⟨h1, _, _, _, h5, h6⟩ := C3_confirm_idempotent dbS bk0 100 9 (by decide)
  exact ⟨h1, h5, h6 dbS 200 10⟩

/-- C4 amended: cancel succeeds (status := cancelled) from every status except
completed and cancelled — so also from no_show — and fails with the cannot-
cancel error exactly on completed and cancelled. -/
theorem C4_cancel_amended (e : QueueEntry) :
    (e.status = QStatus.completed ∨ e.status = QStatus.cancelled →
      cancel_queue_item e = Except.error ("Cannot cancel this item")) ∧
    (e.status ≠ QStatus.completed ∧ e.status ≠ QStatus.cancelled →
      cancel_queue_item e = Except.ok { e with status := QStatus.cancelled }) := by
  constructor
  · intro h
    unfold cancel_queue_item
    rw [if_pos h]
  · intro h
    have hn : ¬(e.status = QStatus.completed ∨ e.status = QStatus.cancelled) := by
      rintro (hc | hc)
      exacts [h.1 hc, h.2 hc]
    unfold cancel_queue_item
    rw [if_neg hn]
    rfl

/-- C4 witness: an in_progress entry cancels; a completed one is refused. -/
theorem C4_witness :
    cancel_queue_item e1s = Except.ok { e1s with status := QStatus.cancelled } ∧
    cancel_queue_item (entry_complete_service e1s 7) =
      Except.error ("Cannot cancel this item") :=
  ⟨(C4_cancel_amended e1s).2 (by decide),
   (C4_cancel_amended (entry_complete_service e1s 7)).1 (by decide)⟩

/-- C4 counterexample: the claim says cancel fails on a no_show entry, but
cancel_queue_item accepts eNS (status no_show) and sets it cancelled. -/
theorem C4_counterexample :
    cancel_queue_item eNS =
      Except.ok
        { id := 3, customer := 3, booking := bk1, status := QStatus.cancelled,
          time_joined := 2, time_started := none, time_completed := none,
          estimated_start_time := none, staff_assigned := none } ∧
    cancel_queue_item eNS ≠ Except.error ("Cannot cancel this item") := by
  decide

/-- C7: start succeeds exactly from waiting — setting time_started := now,
status := in_progress, binding the staff reference when supplied and keeping
the old one when not — and fails with the cannot-start error otherwise. -/
theorem C7_start_service (e : QueueEntry) (now : Nat) (staff_member : Option Nat) :
    (e.status = QStatus.waiting →
      start_service e now staff_member =
        Except.ok (entry_start_service e now staff_member,
          [Command.notify e.customer ("service_started")]) ∧
      (entry_start_service e now staff_member).status = QStatus.in_progress ∧
      (entry_start_service e now staff_member).time_started = some now ∧
      (∀ s, staff_member = some s →
        (entry_start_service e now staff_member).staff_assigned = some s) ∧
      (staff_member = none →
        (entry_start_service e now staff_member).staff_assigned = e.staff_assigned)) ∧
    (e.status ≠ QStatus.waiting →
      start_service e now staff_member = Except.error ("Service cannot be started")) := by
  constructor
  · intro h
    refine ⟨?_, rfl, rfl, ?_, ?_⟩
    · unfold start_service
      rw [if_neg (fun hn => hn h)]
    · intro s hs
      simp [entry_start_service, hs]
    · intro hs
      simp [entry_start_service, hs]
  · intro h
    unfold start_service
    rw [if_pos h]

/-- C7 witness: the waiting entry e2w starts (staff 9 bound); the in_progress
entry e1s is refused. -/
theorem C7_witness :
    start_service e2w 4 (some 9) =
      Except.ok (entry_start_service e2w 4 (some 9),
        [Command.notify e2w.customer ("service_started")]) ∧
    (entry_start_service e2w 4 (some 9)).staff_assigned = some 9 ∧
    start_service e1s 4 (some 9) = Except.error ("Service cannot be started") :=
  ⟨((C7_start_service e2w 4 (some 9)).1 (by decide)).1,
   ((C7_start_service e2w 4 (some 9)).1 (by decide)).2.2.2.1 9 rfl,
   (C7_start_service e1s 4 (some 9)).2 (by decide)⟩

/-- C8: on a successful confirm, the created entry's estimated_start_time is
now plus the sum of total_service_duration over all entries waiting at the
instant of confirmation, the new entry excluded. -/
theorem C8_estimated_start_time (db : List QueueEntry) (b : Booking)
    (now newId : Nat) (h : b.is_confirmed = false) :
    confirm_booking_view db b now newId =
      Except.ok (confirm_booking db b now newId) ∧
    (confirm_booking db b now newId).2.2.estimated_start_time =
      some (now + ((db.filter waitingB).map total_service_duration).sum) := by
  constructor
  · unfold confirm_booking_view
    rw [if_neg (by rw [h]; exact Bool.false_ne_true)]
  · show some (now + get_estimated_wait_time db) = _
    rw [get_estimated_wait_time,
      ((perm_active db).map total_service_duration).sum_eq]

/-- C8 witness: confirming bk0 against dbS (one waiting entry of 75 minutes)
stamps estimated_start_time 100 + 75. -/
theorem C8_witness :
    confirm_booking_view dbS bk0 100 9 =
      Except.ok (confirm_booking dbS bk0 100 9) ∧
    (confirm_booking dbS bk0 100 9).2.2.estimated_start_time = some 175 := by
  obtain ⟨h1, h2⟩ := C8_estimated_start_time dbS bk0 100 9 (by decide)
  exact ⟨h1, h2⟩

/-- C5: completing an in_progress entry sets it completed, credits the
customer exactly the sum of loyalty_points times quantity over the booking's
line items, and notifies the customer now first in the active ordering when
one exists (and nobody otherwise); in the two-entry scenario, completing the
first entry makes the second entry's position 1 and wait 0, with a queue_next
notification for its customer. -/
theorem C5_complete_service (db : List QueueEntry) (e : QueueEntry) (now : Nat)
    (h : e.status = QStatus.in_progress) :
    ∃ cmds,
      complete_service db e now =
        Except.ok (replace_entry db (entry_complete_service e now), cmds) ∧
      (entry_complete_service e now).status = QStatus.completed ∧
      (entry_complete_service e now).time_completed = some now ∧
      Command.credit_loyalty e.customer
        ((e.booking.line_items.map
          (fun bs => bs.service.loyalty_points * bs.quantity)).sum) ∈ cmds ∧
      (∀ nxt, (get_active_queue (replace_entry db (entry_complete_service e now))).head? =
          some nxt → Command.notify nxt.customer ("queue_next") ∈ cmds) ∧
      ((get_active_queue (replace_entry db (entry_complete_service e now))).head? = none →
        ∀ u, Command.notify u ("queue_next") ∉ cmds) ∧
      (complete_service dbS e1s 7 =
        Except.ok ([entry_complete_service e1s 7, e2w],
          [Command.credit_loyalty 1 12, Command.notify 1 ("service_completed"),
           Command.notify 2 ("queue_next")]) ∧
       get_customer_position [entry_complete_service e1s 7, e2w] 2 =
         Except.ok (some 1) ∧
       estimate_wait_time [entry_complete_service e1s 7, e2w] 2 = Except.ok 0) := by
  refine ⟨[Command.credit_loyalty e.customer
      ((e.booking.line_items.map
        (fun bs => bs.service.loyalty_points * bs.quantity)).sum),
      Command.notify e.customer ("service_completed")] ++
      (match (get_active_queue
          (replace_entry db (entry_complete_service e now))).head? with
        | some nxt => [Command.notify nxt.customer ("queue_next")]
        | none => []),
    ?_, rfl, rfl, ?_, ?_, ?_, by decide⟩
  · unfold complete_service
    rw [if_neg (fun hn => hn h)]
  · exact List.mem_append_left _ (List.mem_cons_self _ _)
  · intro nxt hh
    rw [hh]
    simp
  · intro hh u
    rw [hh]
    simp

/-- C5 witness: the concrete two-entry scenario, extracted from the theorem
applied at dbS, e1s, time 7. -/
theorem C5_witness :
    complete_service dbS e1s 7 =
      Except.ok ([entry_complete_service e1s 7, e2w],
        [Command.credit_loyalty 1 12, Command.notify 1 ("service_completed"),
         Command.notify 2 ("queue_next")]) ∧
    get_customer_position [entry_complete_service e1s 7, e2w] 2 =
      Except.ok (some 1) ∧
    estimate_wait_time [entry_complete_service e1s 7, e2w] 2 = Except.ok 0 := by
  obtain ⟨cmds, _, _, _, _, _, _, hscen⟩ := C5_complete_service dbS e1s 7 (by decide)
  exact hscen

/-- C6 amended: completing a queue entry emits no consume_stock command at
all; the per-product settlement with quantity quantity_used times line
quantity is performed by Order.complete_order in the orders app, which queue
completion does not invoke. -/
theorem C6_stock_settlement (db : List QueueEntry) (e : QueueEntry) (now : Nat)
    (db2 : List QueueEntry) (cmds : List Command)
    (hok : complete_service db e now = Except.ok (db2, cmds)) :
    (∀ p q, Command.consume_stock p q ∉ cmds) ∧
    (∀ (product_items : List (Nat × Nat))
        (service_items : List OrderServiceItem) (item : OrderServiceItem)
        (sp : Nat × Nat), item ∈ service_items →
      sp ∈ item.service.service_products →
      Command.consume_stock sp.1 (sp.2 * item.quantity) ∈
        complete_order_stock_commands product_items service_items) := by
  constructor
  · intro p q hmem
    by_cases hs : e.status = QStatus.in_progress
    · unfold complete_service at hok
      rw [if_neg (fun hn => hn hs)] at hok
      have hcmds : cmds =
          [Command.credit_loyalty e.customer
            ((e.booking.line_items.map
              (fun bs => bs.service.loyalty_points * bs.quantity)).sum),
           Command.notify e.customer ("service_completed")] ++
          (match (get_active_queue
              (replace_entry db (entry_complete_service e now))).head? with
            | some nxt => [Command.notify nxt.customer ("queue_next")]
            | none => []) := by
        have hpair := Except.ok.inj hok
        exact (congrArg Prod.snd hpair).symm
      rw [hcmds] at hmem
      rcases List.mem_append.mp hmem with hm | hm
      · simp at hm
      · revert hm
        cases (get_active_queue
            (replace_entry db (entry_complete_service e now))).head? <;> simp
    · unfold complete_service at hok
      rw [if_pos hs] at hok
      cases hok
  · intro product_items service_items item sp hitem hsp
    unfold complete_order_stock_commands
    refine List.mem_append_right _ ?_
    rw [List.mem_flatten]
    exact ⟨_, List.mem_map_of_mem _ hitem, List.mem_map_of_mem _ hsp⟩

/-- C6 witness: the theorem applied at the product-consuming scenario, giving
both the absence on queue completion and the presence in order completion. -/
theorem C6_witness :
    Command.consume_stock 7 6 ∉
      [Command.credit_loyalty 1 0, Command.notify 1 ("service_completed")] ∧
    Command.consume_stock 7 6 ∈
      complete_order_stock_commands [] [{ service := svcP, quantity := 3 }] := by
  obtain ⟨h1, h2⟩ := C6_stock_settlement dbC6 eC6 5 [entry_complete_service eC6 5]
    [Command.credit_loyalty 1 0, Command.notify 1 ("service_completed")] (by decide)
  exact ⟨h1 7 6,
    h2 [] [{ service := svcP, quantity := 3 }] { service := svcP, quantity := 3 }
      (7, 2) (by decide) (by decide)⟩

/-- C6 counterexample: completing eC6 — whose booking's service consumes two
units of product 7 at line quantity 3 — emits only the loyalty credit and the
customer notification, not the consume_stock command of quantity 6 that the
claim requires. -/
theorem C6_counterexample :
    complete_service dbC6 eC6 5 =
      Except.ok ([entry_complete_service eC6 5],
        [Command.credit_loyalty 1 0, Command.notify 1 ("service_completed")]) ∧
    Command.consume_stock 7 6 ∉
      [Command.credit_loyalty 1 0, Command.notify 1 ("service_completed")] := by
  decide

end Salon
